import Mathlib

/-!
Shallow embedding of the Sift backend (`src/main.py`), a blocklist
management HTTP API with three endpoints:

* `GET /blocklist` — returns all stored user ids,
* `POST /report`   — authenticated; inserts a new block record or
  increments the count of an existing one,
* `GET /health`    — static liveness probe.

The external datastore (a Supabase table `blocklist` with columns
`user_id`, `reason`, `block_count`) is modelled as a list of records.
Each outbound datastore call can fail; a failing call raises and does
not mutate the table (the store's calls are atomic units), which the
handler surfaces as HTTP 500.  Failure of each call is modelled by an
explicit `Option String` argument: `none` means the call succeeds,
`some e` means it raises an exception whose string form is `e`.
-/

namespace Sift

/-- Request body of `POST /report` (pydantic model `ReportRequest`):
`user_id : str`, `reason : Optional[str] = None`. -/
structure ReportRequest where
  user_id : String
  reason : Option String
deriving DecidableEq, Repr

/-- A row of the `blocklist` table.  `reason` is nullable.
`block_count` is nullable too (`none` models SQL NULL as well as an
absent field, both of which the handler coerces with
`.get("block_count", 1) or 1`). -/
structure BlockRecord where
  user_id : String
  reason : Option String
  block_count : Option Int
deriving DecidableEq, Repr

/-- The state of the external datastore: the rows of the `blocklist`
table, in the order the store would return them. -/
abbrev Datastore := List BlockRecord

/-- The observable HTTP response of a handler. -/
inductive Response where
  /-- 200 body of `GET /blocklist`: `BlocklistResponse(count, users)`. -/
  | blocklistOk (count : Nat) (users : List String)
  /-- 200 body of `POST /report`: `MessageResponse(message)`. -/
  | reportOk (message : String)
  /-- 200 body of `GET /health`: `{"status": "healthy"}`. -/
  | healthOk (status : String)
  /-- An `HTTPException(status_code, detail)`. -/
  | httpError (status : Nat) (detail : String)
deriving DecidableEq, Repr

/-- The HTTP status code carried by a response. -/
def Response.statusCode : Response → Nat
  | .blocklistOk _ _ => 200
  | .reportOk _ => 200
  | .healthOk _ => 200
  | .httpError s _ => s

/-- `supabase.table("blocklist").select("user_id").execute()` followed by
the comprehension `[row["user_id"] for row in response.data]`. -/
def selectUserIds (db : Datastore) : List String :=
  db.map (fun r => r.user_id)

/-- The rows matching `.eq("user_id", uid)`. -/
def lookupRecords (db : Datastore) (uid : String) : List BlockRecord :=
  db.filter (fun r => r.user_id = uid)

/-- `supabase.table("blocklist").select("block_count").eq("user_id", uid)
.execute().data`: the `block_count` fields of the matching rows. -/
def selectCountEq (db : Datastore) (uid : String) : List (Option Int) :=
  (lookupRecords db uid).map (fun r => r.block_count)

/-- `supabase.table("blocklist").update({"block_count": c, "reason": rsn})
.eq("user_id", uid).execute()`: every row matching `uid` gets the new
count and reason. -/
def applyUpdate (uid : String) (c : Int) (rsn : Option String)
    (db : Datastore) : Datastore :=
  db.map (fun r =>
    if r.user_id = uid then { r with block_count := some c, reason := rsn }
    else r)

/-- Python `v or d` for `v` the (nullable) `block_count` of a row:
`None` and `0` are falsy and give `d`; any other integer is truthy.
Together with the `.get("block_count", 1)` default this is exactly
`existing.data[0].get("block_count", 1) or 1` from `report_user`. -/
def pyTruthyOr (v : Option Int) (d : Int) : Int :=
  match v with
  | none => d
  | some x => if x = 0 then d else x

/-- `if not x_api_key or x_api_key != API_SECRET` from `report_user`:
the request is rejected when the header is absent, empty (falsy), or
differs from the configured secret.  `API_SECRET = os.getenv(...)` may
itself be unset (`none`), in which case every (string) header differs
from it and is rejected. -/
def keyRejected (apiSecret : Option String) (key : Option String) : Bool :=
  match key with
  | none => true
  | some k => k = "" || some k ≠ apiSecret

/-- Handler of `GET /blocklist`.  `selErr` models the outcome of the
single datastore call. -/
def get_blocklist (db : Datastore) (selErr : Option String) :
    Response × Datastore :=
  match selErr with
  | some e => (Response.httpError 500 ("Database error: " ++ e), db)
  | none =>
    let users := selectUserIds db
    (Response.blocklistOk users.length users, db)

/-- Handler of `POST /report`.  `selErr` models the outcome of the
`select` call, `writeErr` the outcome of the subsequent `update` or
`insert` call. -/
def report_user (apiSecret : Option String) (x_api_key : Option String)
    (request : ReportRequest) (db : Datastore)
    (selErr writeErr : Option String) : Response × Datastore :=
  if keyRejected apiSecret x_api_key then
    (Response.httpError 403 "Forbidden: Invalid API key", db)
  else
    match selErr with
    | some e => (Response.httpError 500 ("Database error: " ++ e), db)
    | none =>
      match selectCountEq db request.user_id with
      | v :: _ =>
        -- user exists: increment block_count, update reason to latest
        let current_count := pyTruthyOr v 1
        match writeErr with
        | some e => (Response.httpError 500 ("Database error: " ++ e), db)
        | none =>
          (Response.reportOk ("User " ++ request.user_id ++
              " reported again (count: " ++ toString (current_count + 1) ++ ")"),
           applyUpdate request.user_id (current_count + 1) request.reason db)
      | [] =>
        -- new user: insert with block_count = 1
        match writeErr with
        | some e => (Response.httpError 500 ("Database error: " ++ e), db)
        | none =>
          (Response.reportOk ("User " ++ request.user_id ++
              " reported successfully"),
           db ++ [⟨request.user_id, request.reason, some 1⟩])

/-- Handler of `GET /health`: takes no datastore and no failure model,
mirroring that the Python handler touches nothing. -/
def health_check : Response :=
  Response.healthOk "healthy"

/-- One inbound HTTP request together with the behaviour of the
datastore calls it will issue. -/
inductive Request where
  | blocklist (selErr : Option String)
  | report (key : Option String) (req : ReportRequest)
      (selErr writeErr : Option String)
  | health
deriving DecidableEq, Repr

/-- Dispatch one request against the current datastore state. -/
def step (apiSecret : Option String) : Request → Datastore →
    Response × Datastore
  | Request.blocklist selErr, db => get_blocklist db selErr
  | Request.report key req selErr writeErr, db =>
      report_user apiSecret key req db selErr writeErr
  | Request.health, db => (health_check, db)

/-- Run a sequence of requests, threading the datastore state. -/
def run (apiSecret : Option String) : List Request → Datastore → Datastore
  | [], db => db
  | r :: rest, db => run apiSecret rest (step apiSecret r db).2

/-- The user ids this single request successfully reports (empty unless
it is a `POST /report` answered 200). -/
def stepReported (apiSecret : Option String) (r : Request)
    (db : Datastore) : List String :=
  match r with
  | Request.report key req selErr writeErr =>
    match (report_user apiSecret key req db selErr writeErr).1 with
    | Response.reportOk _ => [req.user_id]
    | _ => []
  | _ => []

/-- The user ids successfully reported over a request sequence, in
order. -/
def successfulReports (apiSecret : Option String) :
    List Request → Datastore → List String
  | [], _ => []
  | r :: rest, db =>
      stepReported apiSecret r db ++
        successfulReports apiSecret rest (step apiSecret r db).2

/-- The data-model invariant of §3 of the spec: at most one row per
`user_id`, and every stored `block_count` is a present integer ≥ 1. -/
def Invariant (db : Datastore) : Prop :=
  (selectUserIds db).Nodup ∧ ∀ r ∈ db, 1 ≤ r.block_count.getD 0

instance (db : Datastore) : Decidable (Invariant db) := by
  unfold Invariant; infer_instance

/-- `needle` occurs as a contiguous substring of `hay`. -/
def strIncludes (needle hay : String) : Prop :=
  needle.data <:+: hay.data

instance (n h : String) : Decidable (strIncludes n h) := by
  unfold strIncludes; infer_instance

/-! ### Helper lemmas about the datastore operations -/

lemma strIncludes_middle (a b c : String) : strIncludes b (a ++ b ++ c) :=
  ⟨a.data, c.data, by simp [String.data_append]⟩

lemma lookupRecords_append (db₁ db₂ : Datastore) (uid : String) :
    lookupRecords (db₁ ++ db₂) uid =
      lookupRecords db₁ uid ++ lookupRecords db₂ uid :=
  List.filter_append _ _

lemma lookupRecords_eq_nil_iff (db : Datastore) (uid : String) :
    lookupRecords db uid = [] ↔ uid ∉ selectUserIds db := by
  simp only [lookupRecords, selectUserIds, List.filter_eq_nil_iff, List.mem_map,
    decide_eq_true_eq]
  constructor
  · rintro h ⟨r, hr, rfl⟩
    exact h r hr rfl
  · rintro h r hr rfl
    exact h ⟨r, hr, rfl⟩

lemma lookupRecords_cons_inv {db : Datastore} {uid : String}
    {rec : BlockRecord} {rest : List BlockRecord}
    (h : lookupRecords db uid = rec :: rest) :
    rec ∈ db ∧ rec.user_id = uid ∧ uid ∈ selectUserIds db := by
  have hmem : rec ∈ lookupRecords db uid := by rw [h]; exact List.mem_cons_self _ _
  rw [lookupRecords, List.mem_filter] at hmem
  refine ⟨hmem.1, by simpa using hmem.2, ?_⟩
  simp only [selectUserIds, List.mem_map]
  exact ⟨rec, hmem.1, by simpa using hmem.2⟩

lemma selectUserIds_applyUpdate (uid : String) (c : Int) (rsn : Option String)
    (db : Datastore) :
    selectUserIds (applyUpdate uid c rsn db) = selectUserIds db := by
  simp only [selectUserIds, applyUpdate, List.map_map]
  refine List.map_congr_left fun r _ => ?_
  by_cases h : r.user_id = uid <;> simp [h]

lemma lookupRecords_applyUpdate_self (uid : String) (c : Int)
    (rsn : Option String) (db : Datastore) :
    lookupRecords (applyUpdate uid c rsn db) uid =
      (lookupRecords db uid).map
        (fun r => { r with block_count := some c, reason := rsn }) := by
  induction db with
  | nil => rfl
  | cons r db ih =>
    by_cases h : r.user_id = uid <;>
      simp [applyUpdate, lookupRecords, List.filter_cons, h] at ih ⊢ <;>
      simpa [applyUpdate, lookupRecords] using ih

lemma mem_applyUpdate_inv {uid : String} {c : Int} {rsn : Option String}
    {db : Datastore} {r : BlockRecord} (h : r ∈ applyUpdate uid c rsn db) :
    ∃ r₀ ∈ db, r = (if r₀.user_id = uid
      then { r₀ with block_count := some c, reason := rsn } else r₀) := by
  rw [applyUpdate, List.mem_map] at h
  obtain ⟨r₀, hr₀, hr⟩ := h
  exact ⟨r₀, hr₀, hr.symm⟩

/-- The `block_count` selected for an existing record, after the Python
coercion `... or 1`, is the record's own count when the invariant holds. -/
lemma pyTruthyOr_of_pos {v : Int} (hv : 1 ≤ v) :
    pyTruthyOr (some v) 1 = v := by
  have : v ≠ 0 := by omega
  simp [pyTruthyOr, this]

/-! ### Branch lemmas for the `POST /report` handler -/

lemma report_user_rejected {apiSecret key : Option String}
    (req : ReportRequest) (db : Datastore) (selErr writeErr : Option String)
    (h : keyRejected apiSecret key = true) :
    report_user apiSecret key req db selErr writeErr =
      (Response.httpError 403 "Forbidden: Invalid API key", db) := by
  simp [report_user, h]

lemma report_user_selErr {apiSecret key : Option String}
    (req : ReportRequest) (db : Datastore) (e : String)
    (writeErr : Option String) (hkey : keyRejected apiSecret key = false) :
    report_user apiSecret key req db (some e) writeErr =
      (Response.httpError 500 ("Database error: " ++ e), db) := by
  simp [report_user, hkey]

lemma report_user_writeErr {apiSecret key : Option String}
    (req : ReportRequest) (db : Datastore) (e : String)
    (hkey : keyRejected apiSecret key = false) :
    report_user apiSecret key req db none (some e) =
      (Response.httpError 500 ("Database error: " ++ e), db) := by
  simp only [report_user, hkey, Bool.false_eq_true, if_false]
  cases h : selectCountEq db req.user_id <;> simp

lemma report_user_insert {apiSecret key : Option String}
    {req : ReportRequest} {db : Datastore}
    (hkey : keyRejected apiSecret key = false)
    (hnew : lookupRecords db req.user_id = []) :
    report_user apiSecret key req db none none =
      (Response.reportOk ("User " ++ req.user_id ++ " reported successfully"),
       db ++ [⟨req.user_id, req.reason, some 1⟩]) := by
  simp [report_user, hkey, selectCountEq, hnew]

lemma report_user_update {apiSecret key : Option String}
    {req : ReportRequest} {db : Datastore} {rec : BlockRecord}
    {rest : List BlockRecord}
    (hkey : keyRejected apiSecret key = false)
    (hrec : lookupRecords db req.user_id = rec :: rest) :
    report_user apiSecret key req db none none =
      (Response.reportOk ("User " ++ req.user_id ++
          " reported again (count: " ++
          toString (pyTruthyOr rec.block_count 1 + 1) ++ ")"),
       applyUpdate req.user_id (pyTruthyOr rec.block_count 1 + 1)
         req.reason db) := by
  simp [report_user, hkey, selectCountEq, hrec]

/-- A substring witness: if the haystack splits as `a ++ b ++ c` at the
level of character data, then `b` occurs in it. -/
lemma strIncludes_split (a b c hay : String)
    (h : hay.data = a.data ++ (b.data ++ c.data)) : strIncludes b hay :=
  ⟨a.data, c.data, by rw [h]; simp [List.append_assoc]⟩

/-- Effect of one request on the stored state: the invariant is
preserved, no stored id disappears, and the stored ids grow by exactly
the ids successfully reported by this request. -/
lemma step_effects (apiSecret : Option String) (r : Request) (db : Datastore)
    (hinv : Invariant db) :
    Invariant (step apiSecret r db).2 ∧
    (∀ uid ∈ selectUserIds db, uid ∈ selectUserIds (step apiSecret r db).2) ∧
    (selectUserIds (step apiSecret r db).2).toFinset =
      (selectUserIds db).toFinset ∪ (stepReported apiSecret r db).toFinset := by
  cases r with
  | blocklist selErr =>
    cases selErr <;> simp [step, get_blocklist, stepReported, hinv]
  | health => simp [step, stepReported, hinv]
  | report key req selErr writeErr =>
    have hstep : step apiSecret (Request.report key req selErr writeErr) db =
        report_user apiSecret key req db selErr writeErr := rfl
    by_cases hkey : keyRejected apiSecret key = true
    · rw [hstep, report_user_rejected req db selErr writeErr hkey]
      simp [stepReported, report_user_rejected req db selErr writeErr hkey,
        hinv]
    · have hk : keyRejected apiSecret key = false := by simpa using hkey
      cases selErr with
      | some e =>
        rw [hstep, report_user_selErr req db e writeErr hk]
        simp [stepReported, report_user_selErr req db e writeErr hk, hinv]
      | none =>
        cases writeErr with
        | some e =>
          rw [hstep, report_user_writeErr req db e hk]
          simp [stepReported, report_user_writeErr req db e hk, hinv]
        | none =>
          cases hlk : lookupRecords db req.user_id with
          | nil =>
            have hres := report_user_insert hk hlk
            have hnotin : req.user_id ∉ selectUserIds db :=
              (lookupRecords_eq_nil_iff db req.user_id).1 hlk
            have hids : selectUserIds
                (db ++ [⟨req.user_id, req.reason, some 1⟩]) =
                selectUserIds db ++ [req.user_id] := by
              simp [selectUserIds]
            have hrep : stepReported apiSecret
                (Request.report key req none none) db = [req.user_id] := by
              simp [stepReported, hres]
            rw [hstep, hres, hrep]
            refine ⟨⟨?_, ?_⟩, ?_, ?_⟩
            · rw [hids]
              simp [List.nodup_append, hinv.1, hnotin]
            · intro r' hr'
              rcases List.mem_append.1 hr' with h | h
              · exact hinv.2 r' h
              · rcases List.mem_singleton.1 h with rfl
                simp
            · intro uid hu
              rw [hids]
              exact List.mem_append_left _ hu
            · rw [hids]
              simp [List.toFinset_append]
          | cons rec rest =>
            have hres := report_user_update hk hlk
            obtain ⟨hmem, huid, hin⟩ := lookupRecords_cons_inv hlk
            have hc1 : 1 ≤ pyTruthyOr rec.block_count 1 := by
              have h2 := hinv.2 rec hmem
              cases hbc : rec.block_count with
              | none => simp [pyTruthyOr]
              | some v =>
                rw [hbc] at h2
                simp only [Option.getD_some] at h2
                rw [pyTruthyOr_of_pos h2]
                exact h2
            have hrep : stepReported apiSecret
                (Request.report key req none none) db = [req.user_id] := by
              simp [stepReported, hres]
            rw [hstep, hres, hrep]
            refine ⟨⟨?_, ?_⟩, ?_, ?_⟩
            · rw [selectUserIds_applyUpdate]
              exact hinv.1
            · intro r' hr'
              obtain ⟨r₀, hr₀, heq⟩ := mem_applyUpdate_inv hr'
              by_cases h : r₀.user_id = req.user_id
              · rw [heq, if_pos h]
                simp only [Option.getD_some]
                omega
              · rw [heq, if_neg h]
                exact hinv.2 r₀ hr₀
            · intro uid hu
              rw [selectUserIds_applyUpdate]
              exact hu
            · rw [selectUserIds_applyUpdate]
              have hsub : req.user_id ∈ (selectUserIds db).toFinset := by
                simpa using hin
              simp only [List.toFinset_cons, List.toFinset_nil]
              exact (Finset.union_eq_left.2 (by simpa using hsub)).symm

/-- Effect of a request sequence on the stored state, by induction from
`step_effects`. -/
lemma run_effects (apiSecret : Option String) (rs : List Request) :
    ∀ db : Datastore, Invariant db →
      Invariant (run apiSecret rs db) ∧
      (∀ uid ∈ selectUserIds db, uid ∈ selectUserIds (run apiSecret rs db)) ∧
      (selectUserIds (run apiSecret rs db)).toFinset =
        (selectUserIds db).toFinset ∪
          (successfulReports apiSecret rs db).toFinset := by
  induction rs with
  | nil =>
    intro db hinv
    simp [run, successfulReports, hinv]
  | cons r rest ih =>
    intro db hinv
    obtain ⟨h1, h2, h3⟩ := step_effects apiSecret r db hinv
    obtain ⟨g1, g2, g3⟩ := ih (step apiSecret r db).2 h1
    refine ⟨g1, fun uid hu => g2 uid (h2 uid hu), ?_⟩
    show (selectUserIds (run apiSecret rest (step apiSecret r db).2)).toFinset
      = _ ∪ (stepReported apiSecret r db ++
          successfulReports apiSecret rest (step apiSecret r db).2).toFinset
    rw [g3, h3, List.toFinset_append, Finset.union_assoc]

/-! ### Claim theorems -/

/-- C3: a `POST /report` whose `x-api-key` header is absent or not
exactly equal to the configured secret returns HTTP 403 with the fixed
detail, and the datastore state is returned unchanged, whatever the
datastore behaviour. -/
theorem report_bad_key_forbidden (apiSecret key : Option String)
    (req : ReportRequest) (db : Datastore) (selErr writeErr : Option String)
    (h : key = none ∨ key ≠ apiSecret) :
    report_user apiSecret key req db selErr writeErr =
      (Response.httpError 403 "Forbidden: Invalid API key", db) ∧
    (report_user apiSecret key req db selErr writeErr).1.statusCode = 403 := by
  have hrej : keyRejected apiSecret key = true := by
    rcases h with rfl | hne
    · rfl
    · cases key with
      | none => rfl
      | some k => simp [keyRejected, hne]
  rw [report_user_rejected req db selErr writeErr hrej]
  exact ⟨rfl, rfl⟩

/-- Witness for C3 at a concrete input: the wrong key `"nope"` against
secret `"sek"` is rejected with 403 and an unchanged store. -/
theorem report_bad_key_forbidden_witness :
    ((some "nope" : Option String) = none ∨
      (some "nope" : Option String) ≠ some "sek") ∧
    (report_user (some "sek") (some "nope") ⟨"u1", none⟩
        [⟨"u0", none, some 1⟩] none none =
      (Response.httpError 403 "Forbidden: Invalid API key",
       [⟨"u0", none, some 1⟩]) ∧
    (report_user (some "sek") (some "nope") ⟨"u1", none⟩
        [⟨"u0", none, some 1⟩] none none).1.statusCode = 403) :=
  ⟨by decide,
   report_bad_key_forbidden (some "sek") (some "nope") ⟨"u1", none⟩
     [⟨"u0", none, some 1⟩] none none (by decide)⟩

/-- C10: the authentication guard comes before any datastore access:
when the guard rejects the key, the handler answers 403 with the store
untouched under every failure behaviour of the datastore (so also when
it is unavailable), and the response does not depend on the datastore
state or behaviour at all. -/
theorem auth_precedes_datastore (apiSecret key : Option String)
    (req : ReportRequest)
    (h : keyRejected apiSecret key = true) :
    ∀ (db db' : Datastore) (selErr writeErr selErr' writeErr' : Option String),
      report_user apiSecret key req db selErr writeErr =
        (Response.httpError 403 "Forbidden: Invalid API key", db) ∧
      (report_user apiSecret key req db selErr writeErr).1 =
        (report_user apiSecret key req db' selErr' writeErr').1 := by
  intro db db' selErr writeErr selErr' writeErr'
  rw [report_user_rejected req db selErr writeErr h,
    report_user_rejected req db' selErr' writeErr' h]
  exact ⟨rfl, rfl⟩

/-- Witness for C10: a missing key is answered 403 identically whether
every datastore call would fail or none would. -/
theorem auth_precedes_datastore_witness :
    keyRejected (some "sek") none = true ∧
    (report_user (some "sek") none ⟨"u1", none⟩ [] (some "db down")
        (some "db down") =
      (Response.httpError 403 "Forbidden: Invalid API key", []) ∧
    (report_user (some "sek") none ⟨"u1", none⟩ [] (some "db down")
        (some "db down")).1 =
      (report_user (some "sek") none ⟨"u1", none⟩
        [⟨"u0", none, some 3⟩] none none).1) :=
  ⟨by decide,
   auth_precedes_datastore (some "sek") none ⟨"u1", none⟩ (by decide)
     [] [⟨"u0", none, some 3⟩] (some "db down") (some "db down") none none⟩

/-- C7: `GET /health` answers `{status: "healthy"}` with HTTP 200 for
every datastore state and leaves it unchanged; the handler takes no
datastore argument and no failure model, so no datastore access occurs. -/
theorem health_always_healthy :
    (∀ (apiSecret : Option String) (db : Datastore),
      step apiSecret Request.health db = (health_check, db)) ∧
    health_check = Response.healthOk "healthy" ∧
    Response.statusCode health_check = 200 :=
  ⟨fun _ _ => rfl, rfl, rfl⟩

/-- C2: a valid-key report of a previously unseen `user_id` appends
exactly one record with `block_count = 1` and the given reason, leaving
exactly one record for that id, and answers HTTP 200 with a message
containing the user id. -/
theorem report_new_creates_single_record (apiSecret key : Option String)
    (req : ReportRequest) (db : Datastore)
    (hkey : keyRejected apiSecret key = false)
    (hnew : lookupRecords db req.user_id = []) :
    (report_user apiSecret key req db none none).2 =
        db ++ [⟨req.user_id, req.reason, some 1⟩] ∧
    lookupRecords (report_user apiSecret key req db none none).2 req.user_id =
        [⟨req.user_id, req.reason, some 1⟩] ∧
    (report_user apiSecret key req db none none).1 =
        Response.reportOk ("User " ++ req.user_id ++ " reported successfully") ∧
    (report_user apiSecret key req db none none).1.statusCode = 200 ∧
    strIncludes req.user_id
      ("User " ++ req.user_id ++ " reported successfully") := by
  rw [report_user_insert hkey hnew]
  refine ⟨rfl, ?_, rfl, rfl, ?_⟩
  · rw [lookupRecords_append, hnew]
    simp [lookupRecords]
  · exact strIncludes_split "User " req.user_id " reported successfully" _
      (by simp [String.data_append])

/-- Witness for C2: first report of `"u1"` against an empty store. -/
theorem report_new_creates_single_record_witness :
    keyRejected (some "sek") (some "sek") = false ∧
    lookupRecords [] "u1" = [] ∧
    ((report_user (some "sek") (some "sek") ⟨"u1", some "spam"⟩ [] none
        none).2 = [] ++ [⟨"u1", some "spam", some 1⟩] ∧
    lookupRecords (report_user (some "sek") (some "sek") ⟨"u1", some "spam"⟩
        [] none none).2 "u1" = [⟨"u1", some "spam", some 1⟩] ∧
    (report_user (some "sek") (some "sek") ⟨"u1", some "spam"⟩ [] none
        none).1 = Response.reportOk "User u1 reported successfully" ∧
    (report_user (some "sek") (some "sek") ⟨"u1", some "spam"⟩ [] none
        none).1.statusCode = 200 ∧
    strIncludes "u1" ("User " ++ "u1" ++ " reported successfully")) :=
  ⟨by decide, by decide,
   report_new_creates_single_record (some "sek") (some "sek")
     ⟨"u1", some "spam"⟩ [] (by decide) (by decide)⟩

/-- C6: when a datastore call raises `e`, `GET /blocklist` and (with a
valid key) `POST /report` — whether its `select` or its `update`/`insert`
call fails — each answer HTTP 500 whose detail contains the stringified
failure, with the stored state unchanged. -/
theorem datastore_error_yields_500 (apiSecret key : Option String)
    (req : ReportRequest) (db : Datastore) (e : String)
    (hkey : keyRejected apiSecret key = false) :
    get_blocklist db (some e) =
      (Response.httpError 500 ("Database error: " ++ e), db) ∧
    (∀ writeErr, report_user apiSecret key req db (some e) writeErr =
      (Response.httpError 500 ("Database error: " ++ e), db)) ∧
    report_user apiSecret key req db none (some e) =
      (Response.httpError 500 ("Database error: " ++ e), db) ∧
    strIncludes e ("Database error: " ++ e) ∧
    Response.statusCode (Response.httpError 500 ("Database error: " ++ e))
      = 500 := by
  refine ⟨rfl, fun writeErr => report_user_selErr req db e writeErr hkey,
    report_user_writeErr req db e hkey, ?_, rfl⟩
  exact strIncludes_split "Database error: " e "" _
    (by simp [String.data_append])

/-- Witness for C6: a failing datastore call with message `"boom"`. -/
theorem datastore_error_yields_500_witness :
    keyRejected (some "sek") (some "sek") = false ∧
    (get_blocklist [⟨"u0", none, some 1⟩] (some "boom") =
      (Response.httpError 500 ("Database error: " ++ "boom"),
       [⟨"u0", none, some 1⟩]) ∧
    (∀ writeErr, report_user (some "sek") (some "sek") ⟨"u1", none⟩
        [⟨"u0", none, some 1⟩] (some "boom") writeErr =
      (Response.httpError 500 ("Database error: " ++ "boom"),
       [⟨"u0", none, some 1⟩])) ∧
    report_user (some "sek") (some "sek") ⟨"u1", none⟩
        [⟨"u0", none, some 1⟩] none (some "boom") =
      (Response.httpError 500 ("Database error: " ++ "boom"),
       [⟨"u0", none, some 1⟩]) ∧
    strIncludes "boom" ("Database error: " ++ "boom") ∧
    Response.statusCode (Response.httpError 500 ("Database error: " ++ "boom"))
      = 500) :=
  ⟨by decide,
   datastore_error_yields_500 (some "sek") (some "sek") ⟨"u1", none⟩
     [⟨"u0", none, some 1⟩] "boom" (by decide)⟩

/-- C8: a valid-key report of an existing record with a request whose
`reason` is absent or null overwrites the stored reason with null: the
previously stored reason is lost. -/
theorem report_null_reason_overwrites (apiSecret key : Option String)
    (req : ReportRequest) (db : Datastore) (rec : BlockRecord) (old : String)
    (hkey : keyRejected apiSecret key = false)
    (hrec : lookupRecords db req.user_id = [rec])
    (hnoreason : req.reason = none)
    (hold : rec.reason = some old) :
    (lookupRecords db req.user_id).map (fun r => r.reason) = [some old] ∧
    (lookupRecords (report_user apiSecret key req db none none).2
        req.user_id).map (fun r => r.reason) = [none] := by
  constructor
  · rw [hrec]; simp [hold]
  · rw [report_user_update hkey hrec, lookupRecords_applyUpdate_self, hrec]
    simp [hnoreason]

/-- Witness for C8: reporting `"u1"` again with no reason erases the
stored reason `"spam"`. -/
theorem report_null_reason_overwrites_witness :
    keyRejected (some "sek") (some "sek") = false ∧
    lookupRecords [⟨"u1", some "spam", some 1⟩] "u1" =
      [⟨"u1", some "spam", some 1⟩] ∧
    (⟨"u1", none⟩ : ReportRequest).reason = none ∧
    (⟨"u1", some "spam", some 1⟩ : BlockRecord).reason = some "spam" ∧
    ((lookupRecords [⟨"u1", some "spam", some 1⟩] "u1").map
        (fun r => r.reason) = [some "spam"] ∧
    (lookupRecords (report_user (some "sek") (some "sek") ⟨"u1", none⟩
        [⟨"u1", some "spam", some 1⟩] none none).2 "u1").map
      (fun r => r.reason) = [none]) :=
  ⟨by decide, by decide, by decide, by decide,
   report_null_reason_overwrites (some "sek") (some "sek") ⟨"u1", none⟩
     [⟨"u1", some "spam", some 1⟩] ⟨"u1", some "spam", some 1⟩ "spam"
     (by decide) (by decide) (by decide) (by decide)⟩

/-- C1: a valid-key report of a `user_id` that already has a (unique,
invariant-respecting) record leaves exactly one record for that id,
increments its `block_count` from `v` to `v + 1`, replaces the stored
reason with the newly submitted one, and answers HTTP 200 with a message
containing the user id and the new count. -/
theorem report_existing_updates_single_record (apiSecret key : Option String)
    (req : ReportRequest) (db : Datastore) (rec : BlockRecord)
    (hinv : Invariant db)
    (hkey : keyRejected apiSecret key = false)
    (hrec : lookupRecords db req.user_id = [rec]) :
    ∃ v : Int, rec.block_count = some v ∧ 1 ≤ v ∧
      (report_user apiSecret key req db none none).2 =
          applyUpdate req.user_id (v + 1) req.reason db ∧
      lookupRecords (report_user apiSecret key req db none none).2
          req.user_id = [⟨req.user_id, req.reason, some (v + 1)⟩] ∧
      (report_user apiSecret key req db none none).1 =
          Response.reportOk ("User " ++ req.user_id ++
            " reported again (count: " ++ toString (v + 1) ++ ")") ∧
      (report_user apiSecret key req db none none).1.statusCode = 200 ∧
      strIncludes req.user_id ("User " ++ req.user_id ++
            " reported again (count: " ++ toString (v + 1) ++ ")") ∧
      strIncludes (toString (v + 1)) ("User " ++ req.user_id ++
            " reported again (count: " ++ toString (v + 1) ++ ")") := by
  obtain ⟨hmem, huid, -⟩ := lookupRecords_cons_inv hrec
  have hcountD := hinv.2 rec hmem
  cases hbc : rec.block_count with
  | none => rw [hbc] at hcountD; simp at hcountD
  | some v =>
    rw [hbc] at hcountD
    have hv : 1 ≤ v := by simpa using hcountD
    have hcur : pyTruthyOr rec.block_count 1 = v := by
      rw [hbc]; exact pyTruthyOr_of_pos hv
    refine ⟨v, rfl, hv, ?_, ?_, ?_, ?_, ?_, ?_⟩
    · rw [report_user_update hkey hrec, hcur]
    · rw [report_user_update hkey hrec, hcur,
        lookupRecords_applyUpdate_self, hrec]
      cases rec
      simp_all
    · rw [report_user_update hkey hrec, hcur]
    · rw [report_user_update hkey hrec, hcur]
      rfl
    · exact strIncludes_split "User " req.user_id
        (" reported again (count: " ++ toString (v + 1) ++ ")") _
        (by simp [String.data_append])
    · exact strIncludes_split
        ("User " ++ req.user_id ++ " reported again (count: ")
        (toString (v + 1)) ")" _ (by simp [String.data_append])

/-- Witness for C1: a second report of `"u1"` with reason `"scam"`
against a store holding `⟨u1, spam, 1⟩` yields count 2. -/
theorem report_existing_updates_single_record_witness :
    Invariant [⟨"u1", some "spam", some 1⟩] ∧
    keyRejected (some "sek") (some "sek") = false ∧
    lookupRecords [⟨"u1", some "spam", some 1⟩] "u1" =
      [⟨"u1", some "spam", some 1⟩] ∧
    (∃ v : Int,
      (⟨"u1", some "spam", some 1⟩ : BlockRecord).block_count = some v ∧
      1 ≤ v ∧
      (report_user (some "sek") (some "sek") ⟨"u1", some "scam"⟩
          [⟨"u1", some "spam", some 1⟩] none none).2 =
        applyUpdate "u1" (v + 1) (some "scam")
          [⟨"u1", some "spam", some 1⟩] ∧
      lookupRecords (report_user (some "sek") (some "sek")
          ⟨"u1", some "scam"⟩ [⟨"u1", some "spam", some 1⟩] none none).2
          "u1" = [⟨"u1", some "scam", some (v + 1)⟩] ∧
      (report_user (some "sek") (some "sek") ⟨"u1", some "scam"⟩
          [⟨"u1", some "spam", some 1⟩] none none).1 =
        Response.reportOk ("User " ++ "u1" ++ " reported again (count: "
          ++ toString (v + 1) ++ ")") ∧
      (report_user (some "sek") (some "sek") ⟨"u1", some "scam"⟩
          [⟨"u1", some "spam", some 1⟩] none none).1.statusCode = 200 ∧
      strIncludes "u1" ("User " ++ "u1" ++ " reported again (count: "
          ++ toString (v + 1) ++ ")") ∧
      strIncludes (toString (v + 1)) ("User " ++ "u1" ++
          " reported again (count: " ++ toString (v + 1) ++ ")")) :=
  ⟨by decide, by decide, by decide,
   report_existing_updates_single_record (some "sek") (some "sek")
     ⟨"u1", some "scam"⟩ [⟨"u1", some "spam", some 1⟩]
     ⟨"u1", some "spam", some 1⟩ (by decide) (by decide) (by decide)⟩

/-- C9, counterexample: the claim asserts the stored count after an
update of an existing record is always at least 2, but on an existing
record whose stored `block_count` is `-1` (with a valid key, a
well-typed request and no datastore failure) the handler writes
`-1 + 1 = 0`, which is below 2. -/
theorem report_negative_count_below_two :
    keyRejected (some "s") (some "s") = false ∧
    lookupRecords [⟨"u", none, some (-1)⟩] "u" = [⟨"u", none, some (-1)⟩] ∧
    (lookupRecords (report_user (some "s") (some "s") ⟨"u", none⟩
        [⟨"u", none, some (-1)⟩] none none).2 "u").map
      (fun r => r.block_count) = [some 0] ∧
    ¬ (2 ≤ (0 : Int)) := by decide

/-- C9, amended: on an existing record whose stored `block_count` is
missing, null or `0`, a valid-key report treats the current count as 1
and writes `block_count = 2`; consequently the stored count after the
update is at least 2 whenever the prior count is missing, null or
nonnegative (for a negative prior count `n` the handler writes `n + 1`,
which is below 2). -/
theorem report_degenerate_count_writes_two (apiSecret key : Option String)
    (req : ReportRequest) (db : Datastore) (rec : BlockRecord)
    (hkey : keyRejected apiSecret key = false)
    (hrec : lookupRecords db req.user_id = [rec]) :
    ((rec.block_count = none ∨ rec.block_count = some 0) →
      (lookupRecords (report_user apiSecret key req db none none).2
          req.user_id).map (fun r => r.block_count) = [some 2]) ∧
    (∀ x : Int, rec.block_count = some x → 0 ≤ x →
      ∃ y : Int, 2 ≤ y ∧
        (lookupRecords (report_user apiSecret key req db none none).2
            req.user_id).map (fun r => r.block_count) = [some y]) := by
  rw [report_user_update hkey hrec, lookupRecords_applyUpdate_self, hrec]
  constructor
  · rintro (h | h) <;> simp [h, pyTruthyOr]
  · intro x hx hxpos
    refine ⟨pyTruthyOr rec.block_count 1 + 1, ?_, by simp⟩
    rw [hx, pyTruthyOr]
    split <;> omega

/-- Witness for C9 (amended): an existing record with null count gets
count 2, and one with count 3 gets a count of at least 2. -/
theorem report_degenerate_count_writes_two_witness :
    keyRejected (some "s") (some "s") = false ∧
    lookupRecords [⟨"u", none, none⟩] "u" = [⟨"u", none, none⟩] ∧
    ((((⟨"u", none, none⟩ : BlockRecord).block_count = none ∨
        (⟨"u", none, none⟩ : BlockRecord).block_count = some 0) →
      (lookupRecords (report_user (some "s") (some "s") ⟨"u", none⟩
          [⟨"u", none, none⟩] none none).2 "u").map
        (fun r => r.block_count) = [some 2]) ∧
    (∀ x : Int, (⟨"u", none, none⟩ : BlockRecord).block_count = some x →
      0 ≤ x → ∃ y : Int, 2 ≤ y ∧
        (lookupRecords (report_user (some "s") (some "s") ⟨"u", none⟩
            [⟨"u", none, none⟩] none none).2 "u").map
          (fun r => r.block_count) = [some y])) :=
  ⟨by decide, by decide,
   report_degenerate_count_writes_two (some "s") (some "s") ⟨"u", none⟩
     [⟨"u", none, none⟩] ⟨"u", none, none⟩ (by decide) (by decide)⟩

/-- C4: every sequence of operations preserves the data-model invariant
(at most one record per `user_id`, every stored `block_count` present and
at least 1) and never deletes a record: every stored id is still stored
afterwards. -/
theorem run_preserves_invariant (apiSecret : Option String)
    (rs : List Request) (db : Datastore) (hinv : Invariant db) :
    Invariant (run apiSecret rs db) ∧
    ∀ uid ∈ selectUserIds db, uid ∈ selectUserIds (run apiSecret rs db) :=
  ⟨(run_effects apiSecret rs db hinv).1,
   (run_effects apiSecret rs db hinv).2.1⟩

/-- Witness for C4: a report sequence (one repeat, one fresh id, one
rejected request, one failing request) on a one-record store. -/
theorem run_preserves_invariant_witness :
    Invariant [⟨"u0", none, some 1⟩] ∧
    (Invariant (run (some "sek")
        [Request.report (some "sek") ⟨"u0", some "x"⟩ none none,
         Request.report (some "sek") ⟨"u1", none⟩ none none,
         Request.report (some "bad") ⟨"u2", none⟩ none none,
         Request.report (some "sek") ⟨"u3", none⟩ (some "down") none,
         Request.blocklist none, Request.health]
        [⟨"u0", none, some 1⟩]) ∧
    ∀ uid ∈ selectUserIds [⟨"u0", none, some 1⟩],
      uid ∈ selectUserIds (run (some "sek")
        [Request.report (some "sek") ⟨"u0", some "x"⟩ none none,
         Request.report (some "sek") ⟨"u1", none⟩ none none,
         Request.report (some "bad") ⟨"u2", none⟩ none none,
         Request.report (some "sek") ⟨"u3", none⟩ (some "down") none,
         Request.blocklist none, Request.health]
        [⟨"u0", none, some 1⟩])) :=
  ⟨by decide,
   run_preserves_invariant (some "sek")
     [Request.report (some "sek") ⟨"u0", some "x"⟩ none none,
      Request.report (some "sek") ⟨"u1", none⟩ none none,
      Request.report (some "bad") ⟨"u2", none⟩ none none,
      Request.report (some "sek") ⟨"u3", none⟩ (some "down") none,
      Request.blocklist none, Request.health]
     [⟨"u0", none, some 1⟩] (by decide)⟩

/-- C5: `GET /blocklist` never modifies the store; on a store reached by
any request sequence from the empty table it answers HTTP 200 with
`users` listing all stored ids and `count` their number, which equals
the number of distinct `user_id` values ever successfully reported. -/
theorem blocklist_counts_distinct_reported (apiSecret : Option String)
    (rs : List Request) :
    (∀ (db : Datastore) (selErr : Option String),
      (get_blocklist db selErr).2 = db) ∧
    get_blocklist (run apiSecret rs []) none =
      (Response.blocklistOk (selectUserIds (run apiSecret rs [])).length
        (selectUserIds (run apiSecret rs [])), run apiSecret rs []) ∧
    (selectUserIds (run apiSecret rs [])).toFinset =
      (successfulReports apiSecret rs []).toFinset ∧
    (selectUserIds (run apiSecret rs [])).length =
      (successfulReports apiSecret rs []).dedup.length ∧
    (get_blocklist (run apiSecret rs []) none).1.statusCode = 200 := by
  have hinv0 : Invariant ([] : Datastore) := ⟨List.nodup_nil, by simp⟩
  obtain ⟨h1, -, h3⟩ := run_effects apiSecret rs [] hinv0
  have hfin : (selectUserIds (run apiSecret rs [])).toFinset =
      (successfulReports apiSecret rs []).toFinset := by
    simpa [selectUserIds] using h3
  refine ⟨fun db selErr => ?_, rfl, hfin, ?_, rfl⟩
  · cases selErr <;> rfl
  · calc (selectUserIds (run apiSecret rs [])).length
        = (selectUserIds (run apiSecret rs [])).dedup.length := by
          rw [h1.1.dedup]
      _ = (selectUserIds (run apiSecret rs [])).toFinset.card :=
          (List.card_toFinset _).symm
      _ = (successfulReports apiSecret rs []).toFinset.card := by rw [hfin]
      _ = (successfulReports apiSecret rs []).dedup.length :=
          List.card_toFinset _

end Sift
